import Mathlib

/-!
Verification of the kyroskoh/linux-wasm graphics demos against their
specification.  The repository consists of the header
`src/runtime/wasm-graphics.h` (EGL/GL constants, host-import declarations,
convenience macros, and the `graphics_initialize_c` helper) and five demo
programs under `src/runtime/examples/`.  Host-import functions are
implemented outside the repository; we model them as abstract environments
(structures of response functions) and embed the in-repo code as pure
functions over those environments.  C `float` arithmetic is modelled with
exact rationals; the values manipulated here (multiples of small dyadic
rationals) make that model faithful where the claims depend on it.
-/

namespace LinuxWasm

/-! ## Constants from src/runtime/wasm-graphics.h -/

def EGL_FALSE : Nat := 0
def EGL_TRUE : Nat := 1
def EGL_NO_CONTEXT : Nat := 0
def EGL_NO_DISPLAY : Nat := 0
def EGL_NO_SURFACE : Nat := 0

def GL_COLOR_BUFFER_BIT : Nat := 0x00004000
def GL_DEPTH_BUFFER_BIT : Nat := 0x00000100
def GL_TRIANGLES : Nat := 0x0004
def GL_TRIANGLE_STRIP : Nat := 0x0005
def GL_LINES : Nat := 0x0001
def GL_POINTS : Nat := 0x0000

def GL_VERTEX_SHADER : Nat := 0x8B31
def GL_FRAGMENT_SHADER : Nat := 0x8B30
def GL_COMPILE_STATUS : Nat := 0x8B81
def GL_LINK_STATUS : Nat := 0x8B82

def GL_ARRAY_BUFFER : Nat := 0x8892
def GL_ELEMENT_ARRAY_BUFFER : Nat := 0x8893
def GL_STATIC_DRAW : Nat := 0x88E4
def GL_UNSIGNED_BYTE : Nat := 0x1401
def GL_UNSIGNED_SHORT : Nat := 0x1403
def GL_FLOAT : Nat := 0x1406
def GL_TEXTURE_2D : Nat := 0x0DE1
def GL_RGBA : Nat := 0x1908
def GL_DEPTH_TEST : Nat := 0x0B71
def GL_TEXTURE0 : Nat := 0x84C0

/-! ## The `graphics_initialize_c` helper (wasm-graphics.h, lines 388-451)

The host imports it calls are modelled by an environment of response
values.  EGLBoolean results are `Nat` (the C code tests them with `!`,
i.e. against 0); handles are `Nat` with 0 standing for the null handles
`EGL_NO_DISPLAY` / `EGL_NO_SURFACE` / `EGL_NO_CONTEXT`. -/

structure EglHost where
  wasm_graphics_init : Int
  wasm_egl_get_display : Nat
  wasm_egl_initialize : Nat
  wasm_egl_choose_config : Nat
  wasm_egl_create_window_surface : Nat
  wasm_egl_create_context : Nat
  wasm_egl_make_current : Nat

/-- The caller's three output pointers.  `none` models a NULL pointer;
`some v` models a pointer to a cell currently holding `v`. -/
structure Cells where
  display : Option Nat
  surface : Option Nat
  context : Option Nat
deriving DecidableEq

/-- Embedding of the header's initialization helper (wasm-graphics.h
lines 388-451, `graphics_initialize` in the C source):
seven host calls in order, each failure returning -1 immediately; on
success the three output cells are written, each only when the
corresponding pointer is non-NULL. -/
def graphics_initialize_c (H : EglHost) (c : Cells) : Int × Cells :=
  if H.wasm_graphics_init ≠ 0 then (-1, c)
  else if H.wasm_egl_get_display = EGL_NO_DISPLAY then (-1, c)
  else if H.wasm_egl_initialize = 0 then (-1, c)
  else if H.wasm_egl_choose_config = 0 then (-1, c)
  else if H.wasm_egl_create_window_surface = EGL_NO_SURFACE then (-1, c)
  else if H.wasm_egl_create_context = EGL_NO_CONTEXT then (-1, c)
  else if H.wasm_egl_make_current = 0 then (-1, c)
  else
    (0, { display := c.display.map fun _ => H.wasm_egl_get_display
          surface := c.surface.map fun _ => H.wasm_egl_create_window_surface
          context := c.context.map fun _ => H.wasm_egl_create_context })

/-! ## Shader compilation and program linking in the demos

Observable events issued by the shader-setup code of the demos, including
messages written to standard error.  The GL host is an environment of
response functions: the shader id returned by `glCreateShader` (by shader
type), the compile status reported by `glGetShaderiv` (by shader id), the
program id returned by `glCreateProgram`, and the link status. -/

structure GlHost where
  createShader : Nat → Nat
  compileOk : Nat → Bool
  createProgram : Nat
  linkOk : Bool

inductive Ev where
  | createShader (ty : Nat)
  | shaderSource (s : Nat)
  | compileShader (s : Nat)
  | getShaderiv (s : Nat)
  | stderrMsg (msg : String)
  | createProgram
  | attachShader (p s : Nat)
  | linkProgram (p : Nat)
  | getProgramiv (p : Nat)
deriving DecidableEq

/-- The helper `compile_shader` as written in example-cube.c lines 107-123 and
example-demo.c lines 117-133: a shader id of 0 from `glCreateShader`
causes an early return of 0 with no stderr message; a failed compile
prints "Shader error" and returns 0. -/
def compile_shader_cube (H : GlHost) (ty : Nat) : Nat × List Ev :=
  let shader := H.createShader ty
  if shader = 0 then (0, [.createShader ty])
  else
    let evs : List Ev :=
      [.createShader ty, .shaderSource shader, .compileShader shader, .getShaderiv shader]
    if ¬ H.compileOk shader then (0, evs ++ [.stderrMsg "Shader error"])
    else (shader, evs)

/-- The helper `link_program` as written in example-cube.c lines 125-142 and
example-demo.c lines 135-152: the two shader ids are attached to the
program unconditionally; a program id of 0 causes an early return of 0
with no stderr message. -/
def link_program_cube (H : GlHost) (vs fs : Nat) : Nat × List Ev :=
  let program := H.createProgram
  if program = 0 then (0, [.createProgram])
  else
    let evs : List Ev :=
      [.createProgram, .attachShader program vs, .attachShader program fs,
       .linkProgram program, .getProgramiv program]
    if ¬ H.linkOk then (0, evs ++ [.stderrMsg "Link error"])
    else (program, evs)

/-- The shader-setup phase of `main` in example-cube.c lines 194-197 and
example-demo.c lines 216-219: `vs` and `fs` are passed to `link_program`
without being checked; only the resulting program id is compared against
0 (`none` models the `return 1` exit). -/
def cube_shader_setup (H : GlHost) : Option Nat × List Ev :=
  let r1 := compile_shader_cube H GL_VERTEX_SHADER
  let r2 := compile_shader_cube H GL_FRAGMENT_SHADER
  let r3 := link_program_cube H r1.1 r2.1
  (if r3.1 = 0 then none else some r3.1, r1.2 ++ r2.2 ++ r3.2)

/-- The helper `compile_shader` as written in example-shaders.c lines 35-62 and
example-texture.c lines 39-61: every failure path prints to stderr. -/
def compile_shader_checked (H : GlHost) (ty : Nat) : Nat × List Ev :=
  let shader := H.createShader ty
  if shader = 0 then (0, [.createShader ty, .stderrMsg "Failed to create shader"])
  else
    let evs : List Ev :=
      [.createShader ty, .shaderSource shader, .compileShader shader, .getShaderiv shader]
    if ¬ H.compileOk shader then (0, evs ++ [.stderrMsg "Shader compilation failed"])
    else (shader, evs)

/-- The helper `link_program` as written in example-shaders.c lines 65-93 and
example-texture.c lines 64-87. -/
def link_program_checked (H : GlHost) (vs fs : Nat) : Nat × List Ev :=
  let program := H.createProgram
  if program = 0 then (0, [.createProgram, .stderrMsg "Failed to create program"])
  else
    let evs : List Ev :=
      [.createProgram, .attachShader program vs, .attachShader program fs,
       .linkProgram program, .getProgramiv program]
    if ¬ H.linkOk then (0, evs ++ [.stderrMsg "Program linking failed"])
    else (program, evs)

/-- The shader-setup phase of `main` in example-shaders.c lines 116-132
and example-texture.c lines 134-142: each shader id is compared against 0
immediately, with an early `return 1` (modelled by `none`) before
`link_program` is reached. -/
def shaders_shader_setup (H : GlHost) : Option Nat × List Ev :=
  let r1 := compile_shader_checked H GL_VERTEX_SHADER
  if r1.1 = 0 then (none, r1.2)
  else
    let r2 := compile_shader_checked H GL_FRAGMENT_SHADER
    if r2.1 = 0 then (none, r1.2 ++ r2.2)
    else
      let r3 := link_program_checked H r1.1 r2.1
      (if r3.1 = 0 then none else some r3.1, r1.2 ++ r2.2 ++ r3.2)

/-! ## Texture-memory allocation in example-cube.c and example-demo.c -/

inductive AEv where
  | mallocCall (bytes : Nat)
  | stderrMsg (msg : String)
  | texImage2D
  | exitFail
deriving DecidableEq

/-- The texture-allocation phase of example-cube.c lines 276-285: the
`malloc` result (`none` models NULL) is checked immediately, with a
stderr message and `return 1` on failure, before the texture data is
generated and uploaded. -/
def cube_alloc_phase (malloc : Option Nat) : List AEv :=
  .mallocCall (256 * 256 * 4) ::
    match malloc with
    | none => [.stderrMsg "Failed to allocate texture", .exitFail]
    | some _ => [.texImage2D]

/-- The texture-allocation phase of example-demo.c lines 315-335: the
`malloc` result is never checked; the per-cube loop writes the texture
and uploads it regardless. -/
def demo_alloc_phase (_malloc : Option Nat) : List AEv :=
  [.mallocCall (128 * 128 * 4), .texImage2D]

/-- Whether an allocation-phase event is a stderr message. -/
def isStderrEv : AEv → Bool
  | .stderrMsg _ => true
  | _ => false

/-! ## The macro-to-function remapping (wasm-graphics.h, lines 322-385)

The host-import functions declared in the header are modelled as an
abstract environment of uninterpreted functions (arguments and results
are opaque `Nat` tokens; the macros are untyped token substitutions, so
only arity and argument order matter).  Every `egl*`/`gl*` convenience
macro is embedded as a Lean function transliterated from its
`#define`. -/

structure GfxEnv where
  wasm_egl_get_display : Nat → Nat
  wasm_egl_initialize : Nat → Nat → Nat → Nat
  wasm_egl_choose_config : Nat → Nat → Nat → Nat → Nat → Nat
  wasm_egl_create_window_surface : Nat → Nat → Nat → Nat → Nat
  wasm_egl_create_context : Nat → Nat → Nat → Nat → Nat
  wasm_egl_make_current : Nat → Nat → Nat → Nat → Nat
  wasm_egl_swap_buffers : Nat → Nat → Nat
  wasm_gl_clear : Nat → Nat
  wasm_gl_clear_color : Nat → Nat → Nat → Nat → Nat
  wasm_gl_viewport : Nat → Nat → Nat → Nat → Nat
  wasm_gl_create_shader : Nat → Nat
  wasm_gl_shader_source : Nat → Nat → Nat → Nat → Nat
  wasm_gl_compile_shader : Nat → Nat
  wasm_gl_get_shaderiv : Nat → Nat → Nat → Nat
  wasm_gl_get_shader_info_log : Nat → Nat → Nat → Nat → Nat
  wasm_gl_create_program : Nat
  wasm_gl_attach_shader : Nat → Nat → Nat
  wasm_gl_link_program : Nat → Nat
  wasm_gl_use_program : Nat → Nat
  wasm_gl_get_programiv : Nat → Nat → Nat → Nat
  wasm_gl_get_program_info_log : Nat → Nat → Nat → Nat → Nat
  wasm_gl_get_attrib_location : Nat → Nat → Nat
  wasm_gl_get_uniform_location : Nat → Nat → Nat
  wasm_gl_enable_vertex_attrib_array : Nat → Nat
  wasm_gl_disable_vertex_attrib_array : Nat → Nat
  wasm_gl_vertex_attrib_pointer : Nat → Nat → Nat → Nat → Nat → Nat → Nat
  wasm_gl_gen_buffers : Nat → Nat → Nat
  wasm_gl_bind_buffer : Nat → Nat → Nat
  wasm_gl_buffer_data : Nat → Nat → Nat → Nat → Nat
  wasm_gl_draw_arrays : Nat → Nat → Nat → Nat
  wasm_gl_draw_elements : Nat → Nat → Nat → Nat → Nat
  wasm_gl_uniform1f : Nat → Nat → Nat
  wasm_gl_uniform1i : Nat → Nat → Nat
  wasm_gl_uniform2f : Nat → Nat → Nat → Nat
  wasm_gl_uniform3f : Nat → Nat → Nat → Nat → Nat
  wasm_gl_uniform4f : Nat → Nat → Nat → Nat → Nat → Nat
  wasm_gl_uniform2fv : Nat → Nat → Nat → Nat
  wasm_gl_uniform3fv : Nat → Nat → Nat → Nat
  wasm_gl_uniform4fv : Nat → Nat → Nat → Nat
  wasm_gl_uniform_matrix4fv : Nat → Nat → Nat → Nat → Nat
  wasm_gl_gen_textures : Nat → Nat → Nat
  wasm_gl_bind_texture : Nat → Nat → Nat
  wasm_gl_delete_textures : Nat → Nat → Nat
  wasm_gl_tex_image_2d : Nat → Nat → Nat → Nat → Nat → Nat → Nat → Nat → Nat → Nat
  wasm_gl_tex_parameteri : Nat → Nat → Nat → Nat
  wasm_gl_tex_parameterf : Nat → Nat → Nat → Nat
  wasm_gl_active_texture : Nat → Nat
  wasm_gl_enable : Nat → Nat
  wasm_gl_disable : Nat → Nat

def eglGetDisplay (E : GfxEnv) (x : Nat) : Nat := E.wasm_egl_get_display x
def eglInitialize (E : GfxEnv) (d ma mi : Nat) : Nat := E.wasm_egl_initialize d ma mi
def eglChooseConfig (E : GfxEnv) (d a c s n : Nat) : Nat := E.wasm_egl_choose_config d a c s n
def eglCreateWindowSurface (E : GfxEnv) (d c w a : Nat) : Nat := E.wasm_egl_create_window_surface d c w a
def eglCreateContext (E : GfxEnv) (d c s a : Nat) : Nat := E.wasm_egl_create_context d c s a
def eglMakeCurrent (E : GfxEnv) (d dr r c : Nat) : Nat := E.wasm_egl_make_current d dr r c
def eglSwapBuffers (E : GfxEnv) (d s : Nat) : Nat := E.wasm_egl_swap_buffers d s
def glClear (E : GfxEnv) (m : Nat) : Nat := E.wasm_gl_clear m
def glClearColor (E : GfxEnv) (r g b a : Nat) : Nat := E.wasm_gl_clear_color r g b a
def glViewport (E : GfxEnv) (x y w h : Nat) : Nat := E.wasm_gl_viewport x y w h
def glCreateShader (E : GfxEnv) (t : Nat) : Nat := E.wasm_gl_create_shader t
def glShaderSource (E : GfxEnv) (s c str len : Nat) : Nat := E.wasm_gl_shader_source s c str len
def glCompileShader (E : GfxEnv) (s : Nat) : Nat := E.wasm_gl_compile_shader s
def glGetShaderiv (E : GfxEnv) (s p params : Nat) : Nat := E.wasm_gl_get_shaderiv s p params
def glGetShaderInfoLog (E : GfxEnv) (s ml l log : Nat) : Nat := E.wasm_gl_get_shader_info_log s ml l log
def glCreateProgram (E : GfxEnv) : Nat := E.wasm_gl_create_program
def glAttachShader (E : GfxEnv) (p s : Nat) : Nat := E.wasm_gl_attach_shader p s
def glLinkProgram (E : GfxEnv) (p : Nat) : Nat := E.wasm_gl_link_program p
def glUseProgram (E : GfxEnv) (p : Nat) : Nat := E.wasm_gl_use_program p
def glGetProgramiv (E : GfxEnv) (p pn params : Nat) : Nat := E.wasm_gl_get_programiv p pn params
def glGetProgramInfoLog (E : GfxEnv) (p ml l log : Nat) : Nat := E.wasm_gl_get_program_info_log p ml l log
def glGetAttribLocation (E : GfxEnv) (p n : Nat) : Nat := E.wasm_gl_get_attrib_location p n
def glGetUniformLocation (E : GfxEnv) (p n : Nat) : Nat := E.wasm_gl_get_uniform_location p n
def glEnableVertexAttribArray (E : GfxEnv) (i : Nat) : Nat := E.wasm_gl_enable_vertex_attrib_array i
def glDisableVertexAttribArray (E : GfxEnv) (i : Nat) : Nat := E.wasm_gl_disable_vertex_attrib_array i
def glVertexAttribPointer (E : GfxEnv) (i s t n st p : Nat) : Nat := E.wasm_gl_vertex_attrib_pointer i s t n st p
def glGenBuffers (E : GfxEnv) (n b : Nat) : Nat := E.wasm_gl_gen_buffers n b
def glBindBuffer (E : GfxEnv) (t b : Nat) : Nat := E.wasm_gl_bind_buffer t b
def glBufferData (E : GfxEnv) (t s d u : Nat) : Nat := E.wasm_gl_buffer_data t s d u
def glDrawArrays (E : GfxEnv) (m f c : Nat) : Nat := E.wasm_gl_draw_arrays m f c
def glDrawElements (E : GfxEnv) (m c t i : Nat) : Nat := E.wasm_gl_draw_elements m c t i
def glUniform1f (E : GfxEnv) (l v : Nat) : Nat := E.wasm_gl_uniform1f l v
def glUniform1i (E : GfxEnv) (l v : Nat) : Nat := E.wasm_gl_uniform1i l v
def glUniform2f (E : GfxEnv) (l v0 v1 : Nat) : Nat := E.wasm_gl_uniform2f l v0 v1
def glUniform3f (E : GfxEnv) (l v0 v1 v2 : Nat) : Nat := E.wasm_gl_uniform3f l v0 v1 v2
def glUniform4f (E : GfxEnv) (l v0 v1 v2 v3 : Nat) : Nat := E.wasm_gl_uniform4f l v0 v1 v2 v3
def glUniform2fv (E : GfxEnv) (l c v : Nat) : Nat := E.wasm_gl_uniform2fv l c v
def glUniform3fv (E : GfxEnv) (l c v : Nat) : Nat := E.wasm_gl_uniform3fv l c v
def glUniform4fv (E : GfxEnv) (l c v : Nat) : Nat := E.wasm_gl_uniform4fv l c v
def glUniformMatrix4fv (E : GfxEnv) (l c t v : Nat) : Nat := E.wasm_gl_uniform_matrix4fv l c t v
def glGenTextures (E : GfxEnv) (n t : Nat) : Nat := E.wasm_gl_gen_textures n t
def glBindTexture (E : GfxEnv) (tg t : Nat) : Nat := E.wasm_gl_bind_texture tg t
def glDeleteTextures (E : GfxEnv) (n t : Nat) : Nat := E.wasm_gl_delete_textures n t
def glTexImage2D (E : GfxEnv) (tg l i w h b f ty d : Nat) : Nat := E.wasm_gl_tex_image_2d tg l i w h b f ty d
def glTexParameteri (E : GfxEnv) (tg p v : Nat) : Nat := E.wasm_gl_tex_parameteri tg p v
def glTexParameterf (E : GfxEnv) (tg p v : Nat) : Nat := E.wasm_gl_tex_parameterf tg p v
def glActiveTexture (E : GfxEnv) (t : Nat) : Nat := E.wasm_gl_active_texture t
def glEnable (E : GfxEnv) (c : Nat) : Nat := E.wasm_gl_enable c
def glDisable (E : GfxEnv) (c : Nat) : Nat := E.wasm_gl_disable c

/-! ## The step structure of the five demo `main` routines

Each demo's `main` is a straight-line success path (all failure checks
exit the process; they are modelled separately above) followed by a
fixed-count frame loop.  The statements are abstracted to `Step`s, kept
in source order; draw calls record their primitive mode, count and index
type, since the claims inspect them.  The loop body is a function of the
frame number because progress lines are printed only every 60th frame. -/

inductive Step where
  | printMsg
  | initGraphics
  | viewport (x y w h : Nat)
  | enableCap (cap : Nat)
  | compileShaderStep (ty : Nat)
  | linkProgramStep
  | getLocations
  | buildVertexData (bytes : Nat)
  | buildIndexData (bytes : Nat)
  | genBuffer
  | bindBuffer (target : Nat)
  | bufferData (target bytes : Nat)
  | genTexture
  | bindTexture
  | texImage2D (w h : Nat)
  | texParameter
  | useProgram
  | setAttribPointer
  | setUniform
  | activeTexture
  | computeColor
  | clearColor
  | clear (mask : Nat)
  | transform
  | drawArrays (mode first count : Nat)
  | drawElements (mode count ty : Nat)
  | swapBuffers
  | updateState
  | printProgress
  | sleepUs (us : Nat)
  | deleteTextures
deriving DecidableEq

structure DemoShape where
  prelude : List Step
  frameCount : Nat
  loopBody : Nat → List Step
  postlude : List Step

/-- Shape of example-graphics.c `main` (lines 50-109): initialize, set the
viewport, then 1000 frames of hsv_to_rgb / clear / swap / hue update /
conditional progress print / sleep.  No shaders, no vertex data, no draw
call. -/
def graphicsDemo : DemoShape where
  prelude := [.printMsg, .initGraphics, .printMsg, .viewport 0 0 800 600, .printMsg]
  frameCount := 1000
  loopBody := fun n =>
    [.computeColor, .clearColor, .clear (GL_COLOR_BUFFER_BIT ||| GL_DEPTH_BUFFER_BIT),
     .swapBuffers, .updateState]
    ++ (if n % 60 = 0 then [.printProgress] else []) ++ [.sleepUs 16667]
  postlude := [.printMsg]

/-- Shape of example-shaders.c `main` (lines 95-200): initialize, compile the two
fixed shader strings, link, build the 3-vertex (15 floats = 60 bytes)
triangle buffer, then 300 frames of clear / drawArrays / swap /
conditional print / sleep. -/
def shadersDemo : DemoShape where
  prelude :=
    [.printMsg, .initGraphics, .printMsg, .viewport 0 0 800 600, .printMsg,
     .compileShaderStep GL_VERTEX_SHADER, .compileShaderStep GL_FRAGMENT_SHADER,
     .linkProgramStep, .getLocations, .printMsg,
     .buildVertexData 60, .genBuffer, .bindBuffer GL_ARRAY_BUFFER,
     .bufferData GL_ARRAY_BUFFER 60, .printMsg,
     .useProgram, .setAttribPointer, .setAttribPointer, .printMsg]
  frameCount := 300
  loopBody := fun n =>
    [.clearColor, .clear (GL_COLOR_BUFFER_BIT ||| GL_DEPTH_BUFFER_BIT),
     .drawArrays GL_TRIANGLES 0 3, .swapBuffers]
    ++ (if n % 60 = 0 then [.printProgress] else []) ++ [.sleepUs 16667]
  postlude := [.printMsg]

/-- Shape of example-texture.c `main` (lines 113-259): initialize, compile the two
fixed shader strings, link, build the quad vertex buffer (16 floats = 64
bytes) and index buffer (6 shorts = 12 bytes), create the 256x256
checkerboard texture, then 300 frames of clear / drawElements / swap /
conditional print / sleep. -/
def textureDemo : DemoShape where
  prelude :=
    [.printMsg, .initGraphics, .printMsg, .viewport 0 0 800 600, .printMsg,
     .compileShaderStep GL_VERTEX_SHADER, .compileShaderStep GL_FRAGMENT_SHADER,
     .linkProgramStep, .getLocations, .printMsg,
     .buildVertexData 64, .buildIndexData 12,
     .genBuffer, .bindBuffer GL_ARRAY_BUFFER, .bufferData GL_ARRAY_BUFFER 64,
     .genBuffer, .bindBuffer GL_ELEMENT_ARRAY_BUFFER, .bufferData GL_ELEMENT_ARRAY_BUFFER 12,
     .printMsg, .genTexture, .bindTexture, .printMsg,
     .texImage2D 256 256, .texParameter, .texParameter, .texParameter, .texParameter,
     .printMsg, .useProgram, .setAttribPointer, .setAttribPointer,
     .activeTexture, .bindTexture, .setUniform, .printMsg]
  frameCount := 300
  loopBody := fun n =>
    [.clearColor, .clear (GL_COLOR_BUFFER_BIT ||| GL_DEPTH_BUFFER_BIT),
     .drawElements GL_TRIANGLES 6 GL_UNSIGNED_SHORT, .swapBuffers]
    ++ (if n % 60 = 0 then [.printProgress] else []) ++ [.sleepUs 16667]
  postlude := [.printMsg]

/-- Shape of example-cube.c `main` (lines 169-367): initialize, enable depth
testing, compile the two fixed shader strings, link, build the cube
vertex buffer (24 vertices x 8 floats = 768 bytes) and index buffer (36
shorts = 72 bytes), create the 256x256 procedural texture, then 600
frames of clear / matrix transforms / drawElements / swap / rotation
update / conditional print / sleep. -/
def cubeDemo : DemoShape where
  prelude :=
    [.printMsg, .initGraphics, .printMsg, .viewport 0 0 800 600,
     .enableCap GL_DEPTH_TEST, .printMsg,
     .compileShaderStep GL_VERTEX_SHADER, .compileShaderStep GL_FRAGMENT_SHADER,
     .linkProgramStep, .getLocations, .printMsg,
     .buildVertexData 768, .buildIndexData 72,
     .genBuffer, .bindBuffer GL_ARRAY_BUFFER, .bufferData GL_ARRAY_BUFFER 768,
     .genBuffer, .bindBuffer GL_ELEMENT_ARRAY_BUFFER, .bufferData GL_ELEMENT_ARRAY_BUFFER 72,
     .printMsg, .genTexture, .bindTexture,
     .texImage2D 256 256, .texParameter, .texParameter, .texParameter, .texParameter,
     .printMsg, .useProgram,
     .setAttribPointer, .setAttribPointer, .setAttribPointer,
     .activeTexture, .bindTexture, .setUniform, .setUniform, .printMsg]
  frameCount := 600
  loopBody := fun n =>
    [.clearColor, .clear (GL_COLOR_BUFFER_BIT ||| GL_DEPTH_BUFFER_BIT),
     .transform, .setUniform,
     .drawElements GL_TRIANGLES 36 GL_UNSIGNED_SHORT, .swapBuffers, .updateState]
    ++ (if n % 60 = 0 then [.printProgress] else []) ++ [.sleepUs 16667]
  postlude := [.printMsg]

/-- Shape of example-demo.c `main` (lines 192-449): initialize, enable depth
testing, compile the two fixed shader strings, link, build the shared
cube geometry, create seven 128x128 textures, then 900 frames rendering
the seven cubes (per-cube transforms and drawElements) followed by swap /
conditional FPS print / sleep. -/
def multiCubeDemo : DemoShape where
  prelude :=
    [.printMsg, .initGraphics, .printMsg, .viewport 0 0 800 600,
     .enableCap GL_DEPTH_TEST, .printMsg,
     .compileShaderStep GL_VERTEX_SHADER, .compileShaderStep GL_FRAGMENT_SHADER,
     .linkProgramStep, .printMsg, .getLocations,
     .buildVertexData 768, .buildIndexData 72,
     .genBuffer, .bindBuffer GL_ARRAY_BUFFER, .bufferData GL_ARRAY_BUFFER 768,
     .genBuffer, .bindBuffer GL_ELEMENT_ARRAY_BUFFER, .bufferData GL_ELEMENT_ARRAY_BUFFER 72,
     .printMsg]
    ++ ((List.range 7).flatMap fun _ =>
        [.genTexture, .bindTexture, .texImage2D 128 128,
         .texParameter, .texParameter, .texParameter, .texParameter, .printMsg])
    ++ [.useProgram, .setAttribPointer, .setAttribPointer, .setAttribPointer,
        .setUniform, .setUniform, .printMsg]
  frameCount := 900
  loopBody := fun n =>
    [.clearColor, .clear (GL_COLOR_BUFFER_BIT ||| GL_DEPTH_BUFFER_BIT), .updateState]
    ++ ((List.range 7).flatMap fun _ =>
        [.transform, .setUniform, .setUniform, .activeTexture, .bindTexture,
         .drawElements GL_TRIANGLES 36 GL_UNSIGNED_SHORT, .updateState])
    ++ [.swapBuffers]
    ++ (if n % 60 = 0 then [.printProgress] else []) ++ [.sleepUs 16667]
  postlude := [.printMsg]

def demos : List DemoShape :=
  [graphicsDemo, shadersDemo, textureDemo, cubeDemo, multiCubeDemo]

/-- All steps a demo performs in frame `n`'s iteration, with its prelude
and postlude. -/
def allSteps (d : DemoShape) (n : Nat) : List Step :=
  d.prelude ++ d.loopBody n ++ d.postlude

def isCompileStep : Step → Bool
  | .compileShaderStep _ => true
  | _ => false

def isBuildDataStep : Step → Bool
  | .buildVertexData _ => true
  | .buildIndexData _ => true
  | _ => false

def isClearStep : Step → Bool
  | .clear _ => true
  | _ => false

def isDrawStep : Step → Bool
  | .drawArrays _ _ _ => true
  | .drawElements _ _ _ => true
  | _ => false

def isSleepStep : Step → Bool
  | .sleepUs _ => true
  | _ => false

/-- The primitive-mode argument of a draw call, if the step is one. -/
def drawMode : Step → Option Nat
  | .drawArrays m _ _ => some m
  | .drawElements m _ _ => some m
  | _ => none

/-- The primitive modes of all draw calls in a list of steps, in order. -/
def drawModes (l : List Step) : List Nat := l.filterMap drawMode

/-- Modelled from the spec: "each demo's logic is: initialize, compile
two fixed shader strings, build static vertex/index data, loop N times
calling clear/transform/draw/swap/sleep, print progress lines, exit"
(spec.md section 4; the claim extends this to all five demos).  A demo
shape satisfies the spec's sequence when its prelude initializes
graphics, compiles exactly two shaders and builds vertex data, and every
loop iteration clears, transforms, draws, swaps and sleeps, with a
progress line on the printing frames. -/
def specDemoLogicB (d : DemoShape) : Bool :=
  d.prelude.contains .initGraphics &&
  d.prelude.countP isCompileStep == 2 &&
  d.prelude.any isBuildDataStep &&
  (d.loopBody 0).any isClearStep &&
  (d.loopBody 0).contains .transform &&
  (d.loopBody 0).any isDrawStep &&
  (d.loopBody 0).contains .swapBuffers &&
  (d.loopBody 0).any isSleepStep &&
  (d.loopBody 0).contains .printProgress

/-- The spec's per-demo sequence with the transform step absent from the
loop: the shape actually exhibited by example-shaders.c and
example-texture.c, whose frame loops clear, draw, swap and sleep but
build no matrices. -/
def specDemoLoopNoTransformB (d : DemoShape) : Bool :=
  d.prelude.contains .initGraphics &&
  d.prelude.countP isCompileStep == 2 &&
  d.prelude.any isBuildDataStep &&
  (d.loopBody 0).any isClearStep &&
  !(d.loopBody 0).contains .transform &&
  (d.loopBody 0).any isDrawStep &&
  (d.loopBody 0).contains .swapBuffers &&
  (d.loopBody 0).any isSleepStep &&
  (d.loopBody 0).contains .printProgress

/-! ## Procedural texture generation

`create_cube_texture` (example-cube.c lines 145-167, example-demo.c lines
155-181) and `create_checkerboard_texture` (example-texture.c lines
90-111) fill a byte buffer pixel by pixel.  We embed them as the ordered
list of `(offset, value)` byte writes they perform.  C float arithmetic
is modelled with exact rationals; the inputs here (`x/size` with `size` a
power of two, scaled by small constants) are computed exactly by IEEE
single floats, so the model agrees with the C code.  The C
`(GLubyte)` cast of a non-negative float truncates toward zero. -/

/-- C float-to-int conversion: truncation toward zero. -/
def ratTrunc (q : ℚ) : ℤ := if q < 0 then -(⌊-q⌋) else ⌊q⌋

/-- The byte writes of `create_cube_texture(data, size)` from
example-cube.c lines 145-167, in execution order. -/
def create_cube_texture_writes (size : Nat) : List (Nat × Nat) :=
  (List.range size).flatMap fun y =>
    (List.range size).flatMap fun x =>
      let offset := (y * size + x) * 4
      let grid := ((x / 32) + (y / 32)) % 2
      let fx : ℚ := (x : ℚ) / (size : ℚ)
      let fy : ℚ := (y : ℚ) / (size : ℚ)
      if grid ≠ 0 then
        [(offset, (ratTrunc (fx * 200 + 55)).toNat),
         (offset + 1, (ratTrunc (fy * 200 + 55)).toNat),
         (offset + 2, (ratTrunc ((1 - fx) * 200 + 55)).toNat),
         (offset + 3, 255)]
      else
        [(offset, (ratTrunc (fy * 150 + 105)).toNat),
         (offset + 1, (ratTrunc ((1 - fy) * 150 + 105)).toNat),
         (offset + 2, (ratTrunc (fx * 150 + 105)).toNat),
         (offset + 3, 255)]

/-- The byte writes of `create_cube_texture(data, size, hue)` from
example-demo.c lines 155-181.  The per-call colour factors
`r = sinf(hue)*0.5f+0.5f`, `g = sinf(hue+2.094f)*0.5f+0.5f`,
`b = sinf(hue+4.189f)*0.5f+0.5f` are constant across pixels and depend
only on the libm `sinf`, so they are taken as parameters. -/
def create_cube_texture_demo_writes (size : Nat) (r g b : ℚ) : List (Nat × Nat) :=
  (List.range size).flatMap fun y =>
    (List.range size).flatMap fun x =>
      let offset := (y * size + x) * 4
      let grid := ((x / 32) + (y / 32)) % 2
      let fx : ℚ := (x : ℚ) / (size : ℚ)
      let fy : ℚ := (y : ℚ) / (size : ℚ)
      if grid ≠ 0 then
        [(offset, (ratTrunc (fx * 200 * r + 55)).toNat),
         (offset + 1, (ratTrunc (fy * 200 * g + 55)).toNat),
         (offset + 2, (ratTrunc ((1 - fx) * 200 * b + 55)).toNat),
         (offset + 3, 255)]
      else
        [(offset, (ratTrunc (fy * 150 * r + 105)).toNat),
         (offset + 1, (ratTrunc ((1 - fy) * 150 * g + 105)).toNat),
         (offset + 2, (ratTrunc (fx * 150 * b + 105)).toNat),
         (offset + 3, 255)]

/-- The byte writes of `create_checkerboard_texture(data, width, height)`
from example-texture.c lines 90-111, in execution order.  The colored
squares use C integer arithmetic (`(x * 255) / width`). -/
def create_checkerboard_texture_writes (width height : Nat) : List (Nat × Nat) :=
  (List.range height).flatMap fun y =>
    (List.range width).flatMap fun x =>
      let checker := ((x / 16) + (y / 16)) % 2
      let offset := (y * width + x) * 4
      if checker ≠ 0 then
        [(offset, 255), (offset + 1, 255), (offset + 2, 255), (offset + 3, 255)]
      else
        [(offset, (x * 255) / width), (offset + 1, (y * 255) / height),
         (offset + 2, 128), (offset + 3, 255)]

/-! ## Matrix helpers of example-cube.c / example-demo.c

4x4 matrices are flat 16-element float arrays indexed by `i*4 + j`;
float arithmetic is modelled by rationals. -/

def Mat4 : Type := Fin 16 → ℚ

/-- Index `i*4 + j` into the flat 16-element array. -/
def midx (i j : Fin 4) : Fin 16 := ⟨i.val * 4 + j.val, by omega⟩

/-- Embedding of `mat4_identity` (example-cube.c lines 50-53): all entries zero, then
entries 0, 5, 10, 15 set to one. -/
def mat4_identity : Mat4 := fun p =>
  if p.val = 0 ∨ p.val = 5 ∨ p.val = 10 ∨ p.val = 15 then 1 else 0

/-- The inner `k` loop of `mat4_multiply` (example-cube.c lines 55-66):
`temp[i*4+j]` starts at zero and accumulates `a[i*4+k] * b[k*4+j]` for
`k = 0, 1, 2, 3`. -/
def mmulEntry (a b : Mat4) (i j : Fin 4) : ℚ :=
  [(0 : Fin 4), 1, 2, 3].foldl (fun acc k => acc + a (midx i k) * b (midx k j)) 0

/-- Embedding of `mat4_multiply(result, a, b)`: the fully computed local `temp` is
copied into `result` by the final `memcpy`. -/
def mat4_multiply (a b : Mat4) : Mat4 := fun p =>
  mmulEntry a b ⟨p.val / 4, by omega⟩ ⟨p.val % 4, by omega⟩

/-- A store of named `mat4` variables, as used by the call sites in the
demos' frame loops.  `mat4_multiply` reads `a` and `b` entirely into the
local `temp` before the `memcpy` writes `result`, so the destination
update sees the pre-call values even when `result` aliases `a` or `b`. -/
def Mat4Store : Type := Nat → Mat4

def mat4_multiply_st (σ : Mat4Store) (result a b : Nat) : Mat4Store :=
  fun v => if v = result then mat4_multiply (σ a) (σ b) else σ v

/-! ## The colour animation of example-graphics.c -/

/-- The global `hue` (example-graphics.c line 21 and lines 92-95) at the
start of frame `n`: starts at 0, advances by 0.5 per frame, reset to 0
when it reaches 360. -/
def hueSeq : Nat → ℚ
  | 0 => 0
  | n + 1 =>
    let h := hueSeq n + 1/2
    if h ≥ 360 then 0 else h

/-- Embedding of `hsv_to_rgb` (example-graphics.c lines 24-48).  The `switch (i % 6)`
has no default case: when no case matches, `*r`, `*g`, `*b` keep their
(uninitialized) caller values, modelled by `none`.  C `int` remainder
truncates (`Int.tmod`); the float-to-int cast truncates toward zero
(`ratTrunc`). -/
def hsv_to_rgb (h s v : ℚ) : Option (ℚ × ℚ × ℚ) :=
  if s = 0 then some (v, v, v)
  else
    let h' := h / 60
    let i : ℤ := ratTrunc h'
    let f : ℚ := h' - (i : ℚ)
    let p := v * (1 - s)
    let q := v * (1 - s * f)
    let t := v * (1 - s * (1 - f))
    let m := Int.tmod i 6
    if m = 0 then some (v, t, p)
    else if m = 1 then some (q, v, p)
    else if m = 2 then some (p, v, t)
    else if m = 3 then some (p, q, v)
    else if m = 4 then some (t, p, v)
    else if m = 5 then some (v, p, q)
    else none

/-! ## Concrete host environments used to instantiate the theorems -/

/-- A host on which all seven initialization steps succeed. -/
def eglHostOk : EglHost := ⟨0, 1, 1, 1, 2, 3, 1⟩

/-- A host whose `wasm_graphics_init` fails. -/
def eglHostInitFail : EglHost := ⟨1, 1, 1, 1, 2, 3, 1⟩

/-- A host returning `EGL_NO_DISPLAY`; identical to `eglHostOk`
otherwise. -/
def eglHostD0 : EglHost := ⟨0, 0, 1, 1, 2, 3, 1⟩

/-- Output cells: non-NULL display and surface pointers (holding 9), a
NULL context pointer. -/
def cells0 : Cells := ⟨some 9, some 9, none⟩

/-- A GL host on which `glCreateShader` always returns the failure
sentinel 0 while program creation and linking report success. -/
def glHostNoShader : GlHost := ⟨fun _ => 0, fun _ => true, 7, true⟩

/-- A GL host on which everything succeeds except `glCreateProgram`,
which returns 0. -/
def glHostProg0 : GlHost := ⟨fun t => t, fun _ => true, 0, true⟩

/-- Identical to `glHostProg0` except that `glCreateProgram` returns the
handle 7. -/
def glHostProg7 : GlHost := ⟨fun t => t, fun _ => true, 7, true⟩

/-!
# Theorems
-/

/-- Case split: `graphics_initialize_c` either fails leaving the cells untouched or
succeeds writing the three handles through the non-NULL pointers. -/
theorem graphics_initialize_cases (H : EglHost) (c : Cells) :
    graphics_initialize_c H c = (-1, c) ∨
    graphics_initialize_c H c =
      (0, ⟨c.display.map fun _ => H.wasm_egl_get_display,
           c.surface.map fun _ => H.wasm_egl_create_window_surface,
           c.context.map fun _ => H.wasm_egl_create_context⟩) := by
  unfold graphics_initialize_c
  split_ifs <;> first
    | exact Or.inl rfl
    | exact Or.inr rfl

/-- Claim C8: `graphics_initialize_c` is atomic with respect to its output
parameters: it returns 0 or -1; on -1 the caller's cells are untouched;
a NULL output pointer is never written through; and on success each
non-NULL output pointer receives the handle obtained from the host. -/
theorem graphics_initialize_atomic (H : EglHost) (c : Cells) :
    ((graphics_initialize_c H c).1 = 0 ∨ (graphics_initialize_c H c).1 = -1) ∧
    ((graphics_initialize_c H c).1 = -1 → (graphics_initialize_c H c).2 = c) ∧
    (c.display = none → (graphics_initialize_c H c).2.display = none) ∧
    (c.surface = none → (graphics_initialize_c H c).2.surface = none) ∧
    (c.context = none → (graphics_initialize_c H c).2.context = none) ∧
    ((graphics_initialize_c H c).1 = 0 →
      (∀ v, c.display = some v →
        (graphics_initialize_c H c).2.display = some H.wasm_egl_get_display) ∧
      (∀ v, c.surface = some v →
        (graphics_initialize_c H c).2.surface = some H.wasm_egl_create_window_surface) ∧
      (∀ v, c.context = some v →
        (graphics_initialize_c H c).2.context = some H.wasm_egl_create_context)) := by
  rcases graphics_initialize_cases H c with h | h
  · rw [h]
    exact ⟨Or.inr rfl, fun _ => rfl, fun h' => h', fun h' => h', fun h' => h',
      fun h0 => by simp at h0⟩
  · rw [h]
    refine ⟨Or.inl rfl, fun h0 => by simp at h0, ?_, ?_, ?_, ?_⟩
    · intro h'; simp [h']
    · intro h'; simp [h']
    · intro h'; simp [h']
    · exact fun _ =>
        ⟨fun v hv => by simp [hv], fun v hv => by simp [hv], fun v hv => by simp [hv]⟩

/-- Witness for C8: `graphics_initialize_atomic` applied to concrete
hosts; a failing host leaves the cells untouched, and a successful host
leaves the NULL context pointer untouched. -/
theorem graphics_initialize_atomic_witness :
    (graphics_initialize_c eglHostInitFail cells0).2 = cells0 ∧
    (graphics_initialize_c eglHostOk cells0).2.context = none ∧
    (graphics_initialize_c eglHostOk cells0).2.display = some eglHostOk.wasm_egl_get_display :=
  ⟨(graphics_initialize_atomic eglHostInitFail cells0).2.1 (by decide),
   (graphics_initialize_atomic eglHostOk cells0).2.2.2.2.1 (by decide),
   ((graphics_initialize_atomic eglHostOk cells0).2.2.2.2.2 (by decide)).1 9 (by decide)⟩

/-- Claim C5: every `egl*`/`gl*` convenience macro of wasm-graphics.h
forwards to the corresponding `wasm_egl_*`/`wasm_gl_*` host import with
the same arguments in the same order, for every environment and all
argument values. -/
theorem macros_forward_losslessly (E : GfxEnv) :
    (∀ x, eglGetDisplay E x = E.wasm_egl_get_display x) ∧
    (∀ d ma mi, eglInitialize E d ma mi = E.wasm_egl_initialize d ma mi) ∧
    (∀ d a c s n, eglChooseConfig E d a c s n = E.wasm_egl_choose_config d a c s n) ∧
    (∀ d c w a, eglCreateWindowSurface E d c w a = E.wasm_egl_create_window_surface d c w a) ∧
    (∀ d c s a, eglCreateContext E d c s a = E.wasm_egl_create_context d c s a) ∧
    (∀ d dr r c, eglMakeCurrent E d dr r c = E.wasm_egl_make_current d dr r c) ∧
    (∀ d s, eglSwapBuffers E d s = E.wasm_egl_swap_buffers d s) ∧
    (∀ m, glClear E m = E.wasm_gl_clear m) ∧
    (∀ r g b a, glClearColor E r g b a = E.wasm_gl_clear_color r g b a) ∧
    (∀ x y w h, glViewport E x y w h = E.wasm_gl_viewport x y w h) ∧
    (∀ t, glCreateShader E t = E.wasm_gl_create_shader t) ∧
    (∀ s c str len, glShaderSource E s c str len = E.wasm_gl_shader_source s c str len) ∧
    (∀ s, glCompileShader E s = E.wasm_gl_compile_shader s) ∧
    (∀ s p params, glGetShaderiv E s p params = E.wasm_gl_get_shaderiv s p params) ∧
    (∀ s ml l log, glGetShaderInfoLog E s ml l log = E.wasm_gl_get_shader_info_log s ml l log) ∧
    (glCreateProgram E = E.wasm_gl_create_program) ∧
    (∀ p s, glAttachShader E p s = E.wasm_gl_attach_shader p s) ∧
    (∀ p, glLinkProgram E p = E.wasm_gl_link_program p) ∧
    (∀ p, glUseProgram E p = E.wasm_gl_use_program p) ∧
    (∀ p pn params, glGetProgramiv E p pn params = E.wasm_gl_get_programiv p pn params) ∧
    (∀ p ml l log, glGetProgramInfoLog E p ml l log = E.wasm_gl_get_program_info_log p ml l log) ∧
    (∀ p n, glGetAttribLocation E p n = E.wasm_gl_get_attrib_location p n) ∧
    (∀ p n, glGetUniformLocation E p n = E.wasm_gl_get_uniform_location p n) ∧
    (∀ i, glEnableVertexAttribArray E i = E.wasm_gl_enable_vertex_attrib_array i) ∧
    (∀ i, glDisableVertexAttribArray E i = E.wasm_gl_disable_vertex_attrib_array i) ∧
    (∀ i s t n st p, glVertexAttribPointer E i s t n st p = E.wasm_gl_vertex_attrib_pointer i s t n st p) ∧
    (∀ n b, glGenBuffers E n b = E.wasm_gl_gen_buffers n b) ∧
    (∀ t b, glBindBuffer E t b = E.wasm_gl_bind_buffer t b) ∧
    (∀ t s d u, glBufferData E t s d u = E.wasm_gl_buffer_data t s d u) ∧
    (∀ m f c, glDrawArrays E m f c = E.wasm_gl_draw_arrays m f c) ∧
    (∀ m c t i, glDrawElements E m c t i = E.wasm_gl_draw_elements m c t i) ∧
    (∀ l v, glUniform1f E l v = E.wasm_gl_uniform1f l v) ∧
    (∀ l v, glUniform1i E l v = E.wasm_gl_uniform1i l v) ∧
    (∀ l v0 v1, glUniform2f E l v0 v1 = E.wasm_gl_uniform2f l v0 v1) ∧
    (∀ l v0 v1 v2, glUniform3f E l v0 v1 v2 = E.wasm_gl_uniform3f l v0 v1 v2) ∧
    (∀ l v0 v1 v2 v3, glUniform4f E l v0 v1 v2 v3 = E.wasm_gl_uniform4f l v0 v1 v2 v3) ∧
    (∀ l c v, glUniform2fv E l c v = E.wasm_gl_uniform2fv l c v) ∧
    (∀ l c v, glUniform3fv E l c v = E.wasm_gl_uniform3fv l c v) ∧
    (∀ l c v, glUniform4fv E l c v = E.wasm_gl_uniform4fv l c v) ∧
    (∀ l c t v, glUniformMatrix4fv E l c t v = E.wasm_gl_uniform_matrix4fv l c t v) ∧
    (∀ n t, glGenTextures E n t = E.wasm_gl_gen_textures n t) ∧
    (∀ tg t, glBindTexture E tg t = E.wasm_gl_bind_texture tg t) ∧
    (∀ n t, glDeleteTextures E n t = E.wasm_gl_delete_textures n t) ∧
    (∀ tg l i w h b f ty d, glTexImage2D E tg l i w h b f ty d = E.wasm_gl_tex_image_2d tg l i w h b f ty d) ∧
    (∀ tg p v, glTexParameteri E tg p v = E.wasm_gl_tex_parameteri tg p v) ∧
    (∀ tg p v, glTexParameterf E tg p v = E.wasm_gl_tex_parameterf tg p v) ∧
    (∀ t, glActiveTexture E t = E.wasm_gl_active_texture t) ∧
    (∀ c, glEnable E c = E.wasm_gl_enable c) ∧
    (∀ c, glDisable E c = E.wasm_gl_disable c) :=
  ⟨fun _ => rfl, fun _ _ _ => rfl, fun _ _ _ _ _ => rfl, fun _ _ _ _ => rfl,
   fun _ _ _ _ => rfl, fun _ _ _ _ => rfl, fun _ _ => rfl, fun _ => rfl,
   fun _ _ _ _ => rfl, fun _ _ _ _ => rfl, fun _ => rfl, fun _ _ _ _ => rfl,
   fun _ => rfl, fun _ _ _ => rfl, fun _ _ _ _ => rfl, rfl, fun _ _ => rfl,
   fun _ => rfl, fun _ => rfl, fun _ _ _ => rfl, fun _ _ _ _ => rfl,
   fun _ _ => rfl, fun _ _ => rfl, fun _ => rfl, fun _ => rfl,
   fun _ _ _ _ _ _ => rfl, fun _ _ => rfl, fun _ _ => rfl, fun _ _ _ _ => rfl,
   fun _ _ _ => rfl, fun _ _ _ _ => rfl, fun _ _ => rfl, fun _ _ => rfl,
   fun _ _ _ => rfl, fun _ _ _ _ => rfl, fun _ _ _ _ _ => rfl,
   fun _ _ _ => rfl, fun _ _ _ => rfl, fun _ _ _ => rfl, fun _ _ _ _ => rfl,
   fun _ _ => rfl, fun _ _ => rfl, fun _ _ => rfl,
   fun _ _ _ _ _ _ _ _ _ => rfl, fun _ _ _ => rfl, fun _ _ _ => rfl,
   fun _ => rfl, fun _ => rfl, fun _ => rfl⟩

/-- Claim C1, counterexample: on a host whose `glCreateShader` always
fails (returns the sentinel 0), example-cube.c's `main` does NOT check
the shader ids before `link_program` uses them: `glAttachShader`
receives the failed shader id 0 twice, and (the host reporting link
success) the setup proceeds with a program.  Moreover the failed
`glCreateShader` produces no stderr message in `compile_shader`, and in
example-demo.c a failed texture `malloc` is not checked: the demo
proceeds to `glTexImage2D` with no early exit.  This refutes the claim
that every failable call is checked immediately before use (and in
particular that a shader id of 0 is checked before `link_program` uses
it). -/
theorem c1_unchecked_shader_counterexample :
    (cube_shader_setup glHostNoShader).1 = some 7 ∧
    Ev.attachShader 7 0 ∈ (cube_shader_setup glHostNoShader).2 ∧
    compile_shader_cube glHostNoShader GL_VERTEX_SHADER =
      (0, [Ev.createShader GL_VERTEX_SHADER]) ∧
    AEv.texImage2D ∈ demo_alloc_phase none ∧
    AEv.exitFail ∉ demo_alloc_phase none ∧
    (demo_alloc_phase none).any isStderrEv = false := by
  exact ⟨by decide, by decide, by decide, by decide, by decide, by decide⟩

/-- Claim C1, amended: in example-shaders.c and example-texture.c every
failable call is checked immediately with a stderr message and an early
return before the value is used (a vertex-shader id of 0 stops the setup
before any `glAttachShader`); but in example-cube.c and example-demo.c
the shader ids returned by `compile_shader` are passed to `link_program`
unchecked (`glAttachShader` receives them whatever they are), only the
program id is compared against 0 (that check printing nothing), a failed
`glCreateShader` there produces no stderr message, and in example-demo.c
the texture `malloc` is never checked (example-cube.c does check it,
with a stderr message and an early exit). -/
theorem c1_error_handling_amended (H : GlHost) :
    (H.createShader GL_VERTEX_SHADER = 0 →
      (shaders_shader_setup H).1 = none ∧
      (shaders_shader_setup H).2 =
        [Ev.createShader GL_VERTEX_SHADER, Ev.stderrMsg "Failed to create shader"] ∧
      ∀ p s, Ev.attachShader p s ∉ (shaders_shader_setup H).2) ∧
    (H.createProgram ≠ 0 →
      Ev.attachShader H.createProgram (compile_shader_cube H GL_VERTEX_SHADER).1
        ∈ (cube_shader_setup H).2) ∧
    ((cube_shader_setup H).1 = none ↔
      (link_program_cube H (compile_shader_cube H GL_VERTEX_SHADER).1
        (compile_shader_cube H GL_FRAGMENT_SHADER).1).1 = 0) ∧
    (∀ m, AEv.texImage2D ∈ demo_alloc_phase m ∧ AEv.exitFail ∉ demo_alloc_phase m) ∧
    cube_alloc_phase none =
      [AEv.mallocCall 262144, AEv.stderrMsg "Failed to allocate texture", AEv.exitFail] ∧
    cube_alloc_phase (some 1) = [AEv.mallocCall 262144, AEv.texImage2D] := by
  refine ⟨?_, ?_, ?_, ?_, by decide, by decide⟩
  · intro h0
    simp only [shaders_shader_setup, compile_shader_checked, h0, if_pos rfl]
    refine ⟨rfl, rfl, ?_⟩
    intro p s
    simp
  · intro hp
    simp only [cube_shader_setup, link_program_cube]
    rw [if_neg hp]
    by_cases hl : H.linkOk <;> simp [hl]
  · simp only [cube_shader_setup, link_program_cube]
    by_cases hp : H.createProgram = 0
    · rw [if_pos hp]
      simp
    · rw [if_neg hp]
      by_cases hl : H.linkOk <;> simp [hl, hp]
  · intro m
    exact ⟨by simp [demo_alloc_phase], by simp [demo_alloc_phase]⟩

/-- Witness for `c1_error_handling_amended` at the concrete host
`glHostNoShader`. -/
theorem c1_error_handling_amended_witness :
    (shaders_shader_setup glHostNoShader).1 = none ∧
    Ev.attachShader glHostNoShader.createProgram 0 ∈ (cube_shader_setup glHostNoShader).2 ∧
    AEv.texImage2D ∈ demo_alloc_phase (some 5) := by
  have h := c1_error_handling_amended glHostNoShader
  have h2 := h.2.1 (by decide)
  have hvs : (compile_shader_cube glHostNoShader GL_VERTEX_SHADER).1 = 0 := by decide
  rw [hvs] at h2
  exact ⟨(h.1 (by decide)).1, h2, (h.2.2.2.1 (some 5)).1⟩

/-- Claim C7, counterexample: handles ARE inspected and compared against
sentinel values: `glHostProg0` and `glHostProg7` agree on every host
response except the program handle returned by `glCreateProgram` (0
versus 7), yet example-cube.c's setup exits on one and proceeds on the
other — `main` compares the program handle against 0.  Likewise
`eglHostD0` and `eglHostOk` differ only in the display handle (0 =
`EGL_NO_DISPLAY` versus 1), and `graphics_initialize_c`, executed by every
demo, fails on exactly one of them — the display handle is compared
against `EGL_NO_DISPLAY` (and the surface and context handles against
`EGL_NO_SURFACE` / `EGL_NO_CONTEXT`). -/
theorem c7_handles_inspected_counterexample :
    (cube_shader_setup glHostProg0).1 = none ∧
    (cube_shader_setup glHostProg7).1 = some 7 ∧
    glHostProg0.createShader = glHostProg7.createShader ∧
    glHostProg0.compileOk = glHostProg7.compileOk ∧
    glHostProg0.linkOk = glHostProg7.linkOk ∧
    glHostProg0.createProgram = 0 ∧ glHostProg7.createProgram = 7 ∧
    graphics_initialize_c eglHostD0 cells0 = (-1, cells0) ∧
    (graphics_initialize_c eglHostOk cells0).1 = 0 ∧
    eglHostD0.wasm_egl_get_display = EGL_NO_DISPLAY ∧
    eglHostOk.wasm_egl_get_display = 1 :=
  ⟨by decide, by decide, rfl, rfl, rfl, rfl, rfl, by decide, by decide, rfl, rfl⟩

/-- Claim C7, amended: handles are created once and passed by value; no
demo ever calls `glDeleteTextures` and no handle is explicitly destroyed
before process exit.  However, handles are inspected: every demo's
`main` compares the program id against the sentinel 0 (exiting when it
is 0), and `graphics_initialize_c` — executed by all five demos — compares
the display, surface and context handles against `EGL_NO_DISPLAY`,
`EGL_NO_SURFACE` and `EGL_NO_CONTEXT`, failing whenever one equals its
sentinel. -/
theorem c7_handles_amended :
    (∀ d ∈ demos, ∀ n, Step.deleteTextures ∉ allSteps d n) ∧
    (∀ H : GlHost, H.createProgram = 0 →
      (cube_shader_setup H).1 = none ∧ (shaders_shader_setup H).1 = none) ∧
    (∀ (H : EglHost) (c : Cells),
      H.wasm_egl_get_display = EGL_NO_DISPLAY → graphics_initialize_c H c = (-1, c)) ∧
    (∀ (H : EglHost) (c : Cells),
      H.wasm_egl_create_window_surface = EGL_NO_SURFACE →
        graphics_initialize_c H c = (-1, c)) ∧
    (∀ (H : EglHost) (c : Cells),
      H.wasm_egl_create_context = EGL_NO_CONTEXT → graphics_initialize_c H c = (-1, c)) := by
  refine ⟨?_, ?_, ?_, ?_, ?_⟩
  · intro d hd n
    have hcases : d = graphicsDemo ∨ d = shadersDemo ∨ d = textureDemo ∨
        d = cubeDemo ∨ d = multiCubeDemo := by
      simpa [demos] using hd
    rcases hcases with rfl | rfl | rfl | rfl | rfl <;>
      by_cases h : n % 60 = 0 <;>
        simp [allSteps, graphicsDemo, shadersDemo, textureDemo, cubeDemo, multiCubeDemo, h]
  · intro H hp
    constructor
    · simp only [cube_shader_setup, link_program_cube, hp, if_pos rfl]
      rfl
    · simp only [shaders_shader_setup, link_program_checked, hp, if_pos rfl]
      by_cases h1 : (compile_shader_checked H GL_VERTEX_SHADER).1 = 0 <;>
        by_cases h2 : (compile_shader_checked H GL_FRAGMENT_SHADER).1 = 0 <;>
          simp [h1, h2]
  · intro H c h0
    unfold graphics_initialize_c
    rw [h0]
    split_ifs <;> simp_all
  · intro H c h0
    unfold graphics_initialize_c
    rw [h0]
    split_ifs <;> simp_all
  · intro H c h0
    unfold graphics_initialize_c
    rw [h0]
    split_ifs <;> simp_all

/-- Witness for `c7_handles_amended` at concrete inputs. -/
theorem c7_handles_amended_witness :
    Step.deleteTextures ∉ allSteps cubeDemo 0 ∧
    (cube_shader_setup glHostProg0).1 = none ∧ (shaders_shader_setup glHostProg0).1 = none ∧
    graphics_initialize_c eglHostD0 cells0 = (-1, cells0) := by
  have h := c7_handles_amended
  have hmem : cubeDemo ∈ demos := by
    unfold demos
    exact .tail _ (.tail _ (.tail _ (.head _)))
  have h2 := h.2.1 glHostProg0 (by decide)
  exact ⟨h.1 cubeDemo hmem 0, h2.1, h2.2, h.2.2.1 eglHostD0 cells0 (by decide)⟩

/-- Claim C2, counterexample: example-graphics.c does not follow the
claimed step sequence: its `main` compiles no shaders (the spec sequence
requires exactly two compilations), builds no vertex data, and its loop
issues no draw call and no transform. -/
theorem c2_graphics_shape_counterexample :
    specDemoLogicB graphicsDemo = false ∧
    graphicsDemo.prelude.countP isCompileStep = 0 ∧
    graphicsDemo.prelude.any isBuildDataStep = false ∧
    (graphicsDemo.loopBody 0).any isDrawStep = false := by
  exact ⟨by decide, by decide, by decide, by decide⟩

/-- Claim C2, amended: example-cube.c and example-demo.c follow the full
spec sequence (initialize, compile two fixed shaders, build static
vertex/index data, loop N times with clear / transform / draw / swap /
sleep and periodic progress prints); example-shaders.c and
example-texture.c follow the same sequence but with no transform step in
the loop; example-graphics.c compiles no shaders, builds no vertex data
and never draws or transforms — its loop only computes a colour, clears,
swaps and sleeps.  The fixed frame counts are 1000, 300, 300, 600 and
900. -/
theorem c2_demo_shapes_amended :
    specDemoLogicB cubeDemo = true ∧
    specDemoLogicB multiCubeDemo = true ∧
    specDemoLoopNoTransformB shadersDemo = true ∧
    specDemoLoopNoTransformB textureDemo = true ∧
    graphicsDemo.prelude.contains Step.initGraphics = true ∧
    graphicsDemo.prelude.countP isCompileStep = 0 ∧
    graphicsDemo.prelude.any isBuildDataStep = false ∧
    (∀ n, (graphicsDemo.loopBody n).any isDrawStep = false ∧
          (graphicsDemo.loopBody n).contains Step.transform = false ∧
          (graphicsDemo.loopBody n).any isClearStep = true ∧
          (graphicsDemo.loopBody n).contains Step.swapBuffers = true ∧
          (graphicsDemo.loopBody n).any isSleepStep = true ∧
          (graphicsDemo.loopBody n).contains Step.computeColor = true) ∧
    graphicsDemo.frameCount = 1000 ∧ shadersDemo.frameCount = 300 ∧
    textureDemo.frameCount = 300 ∧ cubeDemo.frameCount = 600 ∧
    multiCubeDemo.frameCount = 900 := by
  refine ⟨by decide, by decide, by decide, by decide, by decide, by decide, by decide,
    ?_, by decide, by decide, by decide, by decide, by decide⟩
  intro n
  by_cases h : n % 60 = 0 <;> simp [graphicsDemo, h] <;> decide

/-- Claim C3: `GL_TRIANGLES` equals 0x0004, and it is the primitive-mode
value of every `glDrawArrays`/`glDrawElements` call in the demos: in any
frame, example-graphics.c draws nothing; example-shaders.c,
example-texture.c and example-cube.c each issue one triangle-mode draw
per frame; example-demo.c issues seven. -/
theorem gl_triangles_draw_modes :
    GL_TRIANGLES = 0x0004 ∧
    ∀ n, drawModes (allSteps graphicsDemo n) = [] ∧
         drawModes (allSteps shadersDemo n) = [GL_TRIANGLES] ∧
         drawModes (allSteps textureDemo n) = [GL_TRIANGLES] ∧
         drawModes (allSteps cubeDemo n) = [GL_TRIANGLES] ∧
         drawModes (allSteps multiCubeDemo n) = List.replicate 7 GL_TRIANGLES := by
  refine ⟨rfl, fun n => ?_⟩
  by_cases h : n % 60 = 0 <;>
    refine ⟨?_, ?_, ?_, ?_, ?_⟩ <;>
      simp [allSteps, drawModes, graphicsDemo, shadersDemo, textureDemo, cubeDemo,
        multiCubeDemo, h] <;> decide

/-- Iterating `y*w + x` over `y < h`, `x < w` enumerates `0..h*w-1` in
order. -/
theorem flatMap_range_pair {β : Type} (h w : Nat) (g : Nat → List β) :
    (List.range h).flatMap (fun y => (List.range w).flatMap fun x => g (y * w + x)) =
    (List.range (h * w)).flatMap g := by
  induction h with
  | zero => simp
  | succ k ih =>
    rw [List.range_succ, List.flatMap_append, ih, Nat.succ_mul, List.range_add,
      List.flatMap_append]
    congr 1
    simp [List.flatMap_map]

/-- Four consecutive byte offsets per pixel index enumerate
`0..n*4-1`. -/
theorem range_flatMap_quads (n : Nat) :
    (List.range n).flatMap (fun p => [p * 4, p * 4 + 1, p * 4 + 2, p * 4 + 3]) =
    List.range (n * 4) := by
  induction n with
  | zero => simp
  | succ k ih =>
    rw [List.range_succ, List.flatMap_append, ih, Nat.succ_mul, List.range_add]
    simp [List.range_succ]

theorem flatMap_range_pair_quads (h w : Nat) :
    (List.range h).flatMap (fun y => (List.range w).flatMap fun x =>
      [(y * w + x) * 4, (y * w + x) * 4 + 1, (y * w + x) * 4 + 2, (y * w + x) * 4 + 3]) =
    List.range (h * w * 4) :=
  (flatMap_range_pair h w (fun p => [p * 4, p * 4 + 1, p * 4 + 2, p * 4 + 3])).trans
    (range_flatMap_quads (h * w))

/-- The offsets written by `create_cube_texture` are exactly
`0..size*size*4 - 1`, in order. -/
theorem cube_writes_offsets (size : Nat) :
    (create_cube_texture_writes size).map Prod.fst = List.range (size * size * 4) := by
  unfold create_cube_texture_writes
  simp only [List.map_flatMap]
  simp only [apply_ite (List.map (Prod.fst : Nat × Nat → Nat)), List.map_cons,
    List.map_nil, ite_self]
  exact flatMap_range_pair_quads size size

/-- The offsets written by `create_checkerboard_texture` are exactly
`0..height*width*4 - 1`, in order. -/
theorem checkerboard_writes_offsets (width height : Nat) :
    (create_checkerboard_texture_writes width height).map Prod.fst =
    List.range (height * width * 4) := by
  unfold create_checkerboard_texture_writes
  simp only [List.map_flatMap]
  simp only [apply_ite (List.map (Prod.fst : Nat × Nat → Nat)), List.map_cons,
    List.map_nil, ite_self]
  exact flatMap_range_pair_quads height width

/-- Claim C4: with size (resp. width and height) 256, the procedural
texture generators write each byte offset 0 through 262,143 exactly once
(in order — the offset list equals `List.range 262144`), four bytes per
pixel, and no offset outside that range; in general the offsets are
exactly `0..size*size*4 - 1`. -/
theorem texture_buffer_262144_bytes :
    (∀ size, (create_cube_texture_writes size).map Prod.fst =
      List.range (size * size * 4)) ∧
    (∀ width height, (create_checkerboard_texture_writes width height).map Prod.fst =
      List.range (height * width * 4)) ∧
    (create_cube_texture_writes 256).map Prod.fst = List.range 262144 ∧
    (create_checkerboard_texture_writes 256 256).map Prod.fst = List.range 262144 ∧
    (create_cube_texture_writes 256).length = 262144 ∧
    (create_checkerboard_texture_writes 256 256).length = 262144 := by
  have h256 : (256 : Nat) * 256 * 4 = 262144 := by norm_num
  refine ⟨cube_writes_offsets, checkerboard_writes_offsets, ?_, ?_, ?_, ?_⟩
  · rw [cube_writes_offsets, h256]
  · rw [checkerboard_writes_offsets, h256]
  · rw [← List.length_map (create_cube_texture_writes 256) Prod.fst,
      cube_writes_offsets, h256, List.length_range]
  · rw [← List.length_map (create_checkerboard_texture_writes 256 256) Prod.fst,
      checkerboard_writes_offsets, h256, List.length_range]

/-- Claim C9: every procedurally generated texture is fully opaque: for
every pixel (x, y) inside the given dimensions, all three generators
write the value 255 at the alpha offset `(y*width + x)*4 + 3`, on both
branches of the checker/grid pattern (the demo generator for arbitrary
colour factors r, g, b). -/
theorem texture_alpha_255 :
    (∀ size x y, y < size → x < size →
      ((y * size + x) * 4 + 3, 255) ∈ create_cube_texture_writes size) ∧
    (∀ (size : Nat) (r g b : ℚ) (x y : Nat), y < size → x < size →
      ((y * size + x) * 4 + 3, 255) ∈ create_cube_texture_demo_writes size r g b) ∧
    (∀ width height x y, y < height → x < width →
      ((y * width + x) * 4 + 3, 255) ∈ create_checkerboard_texture_writes width height) := by
  refine ⟨?_, ?_, ?_⟩
  · intro size x y hy hx
    unfold create_cube_texture_writes
    refine List.mem_flatMap.mpr ⟨y, List.mem_range.mpr hy, ?_⟩
    refine List.mem_flatMap.mpr ⟨x, List.mem_range.mpr hx, ?_⟩
    by_cases h : ((x / 32) + (y / 32)) % 2 ≠ 0 <;> simp [h]
  · intro size r g b x y hy hx
    unfold create_cube_texture_demo_writes
    refine List.mem_flatMap.mpr ⟨y, List.mem_range.mpr hy, ?_⟩
    refine List.mem_flatMap.mpr ⟨x, List.mem_range.mpr hx, ?_⟩
    by_cases h : ((x / 32) + (y / 32)) % 2 ≠ 0 <;> simp [h]
  · intro width height x y hy hx
    unfold create_checkerboard_texture_writes
    refine List.mem_flatMap.mpr ⟨y, List.mem_range.mpr hy, ?_⟩
    refine List.mem_flatMap.mpr ⟨x, List.mem_range.mpr hx, ?_⟩
    by_cases h : ((x / 16) + (y / 16)) % 2 ≠ 0 <;> simp [h]

/-- Witness for `texture_alpha_255` at concrete pixels. -/
theorem texture_alpha_255_witness :
    ((5 * 256 + 3) * 4 + 3, 255) ∈ create_cube_texture_writes 256 ∧
    ((2 * 128 + 7) * 4 + 3, 255) ∈ create_cube_texture_demo_writes 128 (1/2) (1/3) (1/4) ∧
    ((1 * 256 + 2) * 4 + 3, 255) ∈ create_checkerboard_texture_writes 256 256 :=
  ⟨texture_alpha_255.1 256 3 5 (by decide) (by decide),
   texture_alpha_255.2.1 128 (1/2) (1/3) (1/4) 7 2 (by decide) (by decide),
   texture_alpha_255.2.2 256 256 2 1 (by decide) (by decide)⟩

/-- Decomposing a flat index into its row and column undoes `midx`. -/
theorem midx_roundtrip (p : Fin 16) :
    midx ⟨p.val / 4, by omega⟩ ⟨p.val % 4, by omega⟩ = p := by
  rcases p with ⟨pv, hp⟩
  apply Fin.ext
  simp [midx]
  omega

theorem mat4_multiply_entry (a b : Mat4) (i j : Fin 4) :
    mat4_multiply a b (midx i j) = mmulEntry a b i j := by
  unfold mat4_multiply
  rcases i with ⟨iv, hi⟩
  rcases j with ⟨jv, hj⟩
  congr 1 <;> apply Fin.ext <;> simp [midx] <;> omega

theorem mmulEntry_eq_sum (a b : Mat4) (i j : Fin 4) :
    mmulEntry a b i j = ∑ k : Fin 4, a (midx i k) * b (midx k j) := by
  simp [mmulEntry, Fin.sum_univ_four, List.foldl]

/-- The identity matrix holds 1 exactly on the diagonal. -/
theorem mat4_identity_entry (i k : Fin 4) :
    mat4_identity (midx i k) = if i = k then 1 else 0 := by
  fin_cases i <;> fin_cases k <;> decide

theorem mmulEntry_id_left (m : Mat4) (i j : Fin 4) :
    mmulEntry mat4_identity m i j = m (midx i j) := by
  rw [mmulEntry_eq_sum]
  calc ∑ k : Fin 4, mat4_identity (midx i k) * m (midx k j)
      = ∑ k : Fin 4, if i = k then m (midx k j) else 0 := by
        refine Finset.sum_congr rfl fun k _ => ?_
        rw [mat4_identity_entry, ite_mul, one_mul, zero_mul]
    _ = m (midx i j) := by simp

theorem mmulEntry_id_right (m : Mat4) (i j : Fin 4) :
    mmulEntry m mat4_identity i j = m (midx i j) := by
  rw [mmulEntry_eq_sum]
  calc ∑ k : Fin 4, m (midx i k) * mat4_identity (midx k j)
      = ∑ k : Fin 4, if k = j then m (midx i k) else 0 := by
        refine Finset.sum_congr rfl fun k _ => ?_
        rw [mat4_identity_entry, mul_ite, mul_one, mul_zero]
    _ = m (midx i j) := by simp

/-- Claim C6: `mat4_multiply` computes the textbook row-by-column
product — entry `i*4+j` of the result is `Σ_k a[i*4+k] * b[k*4+j]` —
`mat4_identity` is a left and a right identity for it, and the
store-level call `mat4_multiply(result, a, b)` always leaves
`mat4_multiply a b` in `result` (the product is accumulated in a local
`temp` copied out at the end, so this holds even when `result` aliases
`a` or `b`). -/
theorem mat4_multiply_textbook :
    (∀ (a b : Mat4) (i j : Fin 4),
      mat4_multiply a b (midx i j) = ∑ k : Fin 4, a (midx i k) * b (midx k j)) ∧
    (∀ m : Mat4, mat4_multiply mat4_identity m = m) ∧
    (∀ m : Mat4, mat4_multiply m mat4_identity = m) ∧
    (∀ (σ : Mat4Store) (result a b : Nat),
      mat4_multiply_st σ result a b result = mat4_multiply (σ a) (σ b)) := by
  refine ⟨?_, ?_, ?_, ?_⟩
  · intro a b i j
    rw [mat4_multiply_entry, mmulEntry_eq_sum]
  · intro m
    funext p
    have h1 : mat4_multiply mat4_identity m p =
        mmulEntry mat4_identity m ⟨p.val / 4, by omega⟩ ⟨p.val % 4, by omega⟩ := rfl
    rw [h1, mmulEntry_id_left, midx_roundtrip]
  · intro m
    funext p
    have h1 : mat4_multiply m mat4_identity p =
        mmulEntry m mat4_identity ⟨p.val / 4, by omega⟩ ⟨p.val % 4, by omega⟩ := rfl
    rw [h1, mmulEntry_id_right, midx_roundtrip]
  · intro σ result a b
    simp [mat4_multiply_st]

/-- The global `hue` stays in [0, 360) across the whole animation. -/
theorem hueSeq_bounds (n : Nat) : 0 ≤ hueSeq n ∧ hueSeq n < 360 := by
  induction n with
  | zero => norm_num [hueSeq]
  | succ k ih =>
    simp only [hueSeq]
    split_ifs with h
    · norm_num
    · push_neg at h
      exact ⟨by linarith [ih.1], h⟩

/-- On non-negative arguments the C truncation agrees with the floor. -/
theorem ratTrunc_nonneg (q : ℚ) (hq : 0 ≤ q) : ratTrunc q = ⌊q⌋ := by
  unfold ratTrunc
  rw [if_neg (not_lt.mpr hq)]

/-- For a hue in [0, 360), the selector `(int)(h/60)` lies in 0..5 (in
particular in the claim's 0..6). -/
theorem hue_selector_bounds (h : ℚ) (h0 : 0 ≤ h) (h1 : h < 360) :
    0 ≤ ratTrunc (h / 60) ∧ ratTrunc (h / 60) ≤ 5 := by
  have hq0 : 0 ≤ h / 60 := by positivity
  have hq6 : h / 60 < 6 := by
    rw [div_lt_iff (by norm_num : (0:ℚ) < 60)]
    linarith
  rw [ratTrunc_nonneg _ hq0]
  exact ⟨Int.floor_nonneg.mpr hq0,
    by have := Int.floor_lt.mpr (by exact_mod_cast hq6 : h / 60 < ((6:ℤ):ℚ)); omega⟩

/-- For a hue in [0, 360) the switch of `hsv_to_rgb h 1 1` always
matches a case. -/
theorem hsv_to_rgb_matches (h : ℚ) (h0 : 0 ≤ h) (h1 : h < 360) :
    ∃ r g b, hsv_to_rgb h 1 1 = some (r, g, b) := by
  have hsel := hue_selector_bounds h h0 h1
  have hq0 : 0 ≤ h / 60 := by positivity
  have htr : ratTrunc (h / 60) = ⌊h / 60⌋ := ratTrunc_nonneg _ hq0
  have hm : Int.tmod (ratTrunc (h / 60)) 6 = ⌊h / 60⌋ := by
    rw [htr, Int.tmod_eq_emod (by rw [← htr]; exact hsel.1) (by norm_num)]
    rw [← htr]
    omega
  simp only [hsv_to_rgb]
  rw [if_neg (by norm_num : ¬(1:ℚ) = 0), hm]
  rw [htr] at hsel
  split_ifs with c0 c1 c2 c3 c4 c5
  · exact ⟨_, _, _, rfl⟩
  · exact ⟨_, _, _, rfl⟩
  · exact ⟨_, _, _, rfl⟩
  · exact ⟨_, _, _, rfl⟩
  · exact ⟨_, _, _, rfl⟩
  · exact ⟨_, _, _, rfl⟩
  · exact absurd rfl (by omega : ¬(0:ℤ) = 0)

/-- Whatever case the switch of `hsv_to_rgb h 1 1` selects for a hue in
[0, 360), the three output components lie in [0, 1]. -/
theorem hsv_to_rgb_bounds (h : ℚ) (h0 : 0 ≤ h) (h1 : h < 360) (r g b : ℚ)
    (heq : hsv_to_rgb h 1 1 = some (r, g, b)) :
    0 ≤ r ∧ r ≤ 1 ∧ 0 ≤ g ∧ g ≤ 1 ∧ 0 ≤ b ∧ b ≤ 1 := by
  have hq0 : 0 ≤ h / 60 := by positivity
  have htr : ratTrunc (h / 60) = ⌊h / 60⌋ := ratTrunc_nonneg _ hq0
  have hf0 : 0 ≤ h / 60 - (⌊h / 60⌋ : ℚ) := by linarith [Int.floor_le (h / 60)]
  have hf1 : h / 60 - (⌊h / 60⌋ : ℚ) < 1 := by linarith [Int.lt_floor_add_one (h / 60)]
  simp only [hsv_to_rgb] at heq
  rw [if_neg (by norm_num : ¬(1:ℚ) = 0), htr] at heq
  split_ifs at heq
  all_goals
    first
      | (simp only [Option.some.injEq, Prod.mk.injEq] at heq
         obtain ⟨rfl, rfl, rfl⟩ := heq
         refine ⟨by linarith, by linarith, by linarith, by linarith, by linarith,
           by linarith⟩)
      | simp at heq

/-- Claim C10: in example-graphics.c's animation loop the global hue
satisfies 0 ≤ hue < 360 at every call to `hsv_to_rgb` (it starts at 0,
advances 0.5 per frame, and resets to 0 on reaching 360); under that
precondition, with s = v = 1 as passed in the loop, the selector
`(int)(h/60)` lies in 0..6, the switch on `i % 6` always matches a case,
and the three output components are all in [0, 1]. -/
theorem graphics_hue_hsv_invariant (n : Nat) :
    0 ≤ hueSeq n ∧ hueSeq n < 360 ∧
    0 ≤ ratTrunc (hueSeq n / 60) ∧ ratTrunc (hueSeq n / 60) ≤ 6 ∧
    ∃ r g b, hsv_to_rgb (hueSeq n) 1 1 = some (r, g, b) ∧
      0 ≤ r ∧ r ≤ 1 ∧ 0 ≤ g ∧ g ≤ 1 ∧ 0 ≤ b ∧ b ≤ 1 := by
  obtain ⟨h0, h1⟩ := hueSeq_bounds n
  obtain ⟨hs0, hs5⟩ := hue_selector_bounds (hueSeq n) h0 h1
  obtain ⟨r, g, b, heq⟩ := hsv_to_rgb_matches (hueSeq n) h0 h1
  obtain ⟨hr0, hr1, hg0, hg1, hb0, hb1⟩ := hsv_to_rgb_bounds (hueSeq n) h0 h1 r g b heq
  exact ⟨h0, h1, hs0, by omega, r, g, b, heq, hr0, hr1, hg0, hg1, hb0, hb1⟩

end LinuxWasm
